import Mathlib

/-!
Verification of the pyshr wrapper (`src/pyshr.py`) against its specification.

The wrapper is Python 2 code (it uses `xrange`, `unicode`, `long`) binding the
libshr C queue engine through CFFI; the engine itself is not part of the
repository sources, only its declarations (`src/pyshr_build.py`).  The
definitions below embed the wrapper's pure logic directly; engine behaviour,
where a claim needs it, is modelled from the spec and marked as such.

Conventions of the embedding:
* Python 2 `str` and `bytes` are the same type; both are `PyVal.pstr` over a
  byte list.  `unicode` is `PyVal.punicode` over a code-point list.
* A Python float is carried opaquely as its 8-byte value (`pfloat`); the code
  never computes with float payloads, it only stores and reloads them.
* Fallible Python code returns `Except PyError`; `PyError` distinguishes the
  wrapper's `ShareException` from built-in exceptions (`IndexError`,
  `TypeError`, `OverflowError`, unicode codec errors) that the interpreter or
  CFFI raises.  A `.notModeled` error marks input shapes none of the claims
  reach (e.g. reading raw memory at a type other than the one stored); no
  theorem below ever produces or consumes it.
-/

/-- Python 2 runtime values that can reach the codec paths of the wrapper. -/
inductive PyVal where
  | pint (n : Int)
  | plong (n : Int)
  | pfloat (bits : Nat)
  | pstr (bs : List Nat)
  | punicode (cps : List Nat)
  | pnone
deriving DecidableEq

/-- An element of the `items` argument of `addv`: either a plain value or a
Python tuple of values (the tagged form `(type, value)` is `tup [tag, v]`). -/
inductive PyItem where
  | plain (v : PyVal)
  | tup (es : List PyVal)
deriving DecidableEq

/-- Python exception outcomes of the wrapper paths. -/
inductive PyError where
  | shareException (whence msg : String)
  | indexError
  | typeError
  | overflowError
  | attributeError
  | unicodeEncodeError
  | unicodeDecodeError
  | notModeled (what : String)
deriving DecidableEq

/-- `ShareError.text` (pyshr.py lines 25-39): twelve messages, indices 0-11. -/
def shareErrorText : List String := [
  "success",
  "retry",
  "no items on queue",
  "depth limit reached",
  "invalid argument",
  "not enough memory to satisfy request",
  "permission error",
  "existence error",
  "invalid state",
  "problem with path name",
  "required operation not supported",
  "system error"
]

/-- `SHStatus.is_valid` (pyshr.py lines 59-67) on an int status:
`SH_OK <= status < SH_ERR_MAX`, i.e. `0 <= status < 14`. -/
def shStatusIsValid (status : Int) : Bool :=
  decide (0 ≤ status) && decide (status < 14)

/-- `SQEvent.is_valid` (pyshr.py lines 97-105) on an int event:
`NONE <= event <= NONEMPTY`, i.e. `0 <= event <= 6`. -/
def sqEventIsValid (event : Int) : Bool :=
  decide (0 ≤ event) && decide (event ≤ 6)

/-- `SQMode.is_valid` (pyshr.py lines 76-84) on an int mode:
`IMMUTABLE <= mode <= READWRITE`, i.e. `0 <= mode <= 3`. -/
def sqModeIsValid (mode : Int) : Bool :=
  decide (0 ≤ mode) && decide (mode ≤ 3)

/-- The status-to-exception path of `SharedQueue.add` (pyshr.py lines 203-205):
a nonzero engine status is surfaced as `ShareException('add',
ShareError.text[status])`; looking the message up past the end of the
12-entry list is an `IndexError`. -/
def pyAddStatus (status : Nat) : Except PyError Unit :=
  if status ≠ 0 then
    match shareErrorText.get? status with
    | some msg => .error (.shareException "add" msg)
    | none => .error .indexError
  else .ok ()

/-! ## Event subscription (claim C1)

The engine keeps a per-process subscription set.  Modelled from the spec:
"Each attached process independently maintains its own subscription set;
`subscribe`/`unsubscribe`/`isSubscribed` are idempotent", with `ALL = 0` as
the bulk-subscription sentinel.  The engine functions below stand for
`shr_q_subscribe`, `shr_q_unsubscribe` and `shr_q_is_subscribed`, which are
declared in `src/pyshr_build.py` but implemented in the external libshr
library. -/

/-- Modelled from the spec: `shr_q_subscribe` adds the event to the calling
process's subscription set (idempotently); the sentinel `ALL = 0` subscribes
every event. -/
def shrQSubscribe (s : List Int) (event : Int) : List Int :=
  if event = 0 then [1, 2, 3, 4, 5, 6]
  else if event ∈ s then s else s ++ [event]

/-- Modelled from the spec: `shr_q_unsubscribe` removes the event from the
calling process's subscription set (idempotently); the sentinel `ALL = 0`
clears the set. -/
def shrQUnsubscribe (s : List Int) (event : Int) : List Int :=
  if event = 0 then [] else s.filter (fun e => e ≠ event)

/-- Modelled from the spec: `shr_q_is_subscribed` tests membership. -/
def shrQIsSubscribed (s : List Int) (event : Int) : Bool :=
  event ∈ s

/-- `SharedQueue.subscribe` (pyshr.py lines 530-538): validate the event, then
call `shr_q_subscribe`. -/
def pySubscribe (s : List Int) (event : Int) : Except PyError (List Int) :=
  if sqEventIsValid event then .ok (shrQSubscribe s event)
  else .error (.shareException "subscribe" "invalid argument")

/-- `SharedQueue.unsubscribe` (pyshr.py lines 540-547): validate the event,
then call the engine.  The source calls `lib.shr_q_subscribe` at line 545 —
not `lib.shr_q_unsubscribe`, although that function is declared in the cdef
(pyshr_build.py lines 288-291). -/
def pyUnsubscribe (s : List Int) (event : Int) : Except PyError (List Int) :=
  if sqEventIsValid event then .ok (shrQSubscribe s event)
  else .error (.shareException "unsubscribe" "invalid argument")

/-- `SharedQueue.is_subscribed` (pyshr.py lines 549-555). -/
def pyIsSubscribed (s : List Int) (event : Int) : Except PyError Bool :=
  if sqEventIsValid event then .ok (shrQIsSubscribed s event)
  else .error (.shareException "is_subscribed" "invalid argument")

/-! ## CFFI call arity (claims C4, C5)

CFFI rejects a call whose argument count differs from the declared parameter
count of the cdef with a `TypeError`, before any C code runs.  The parameter
lists below are transcribed from `src/pyshr_build.py`, the argument lists from
the call sites in `src/pyshr.py`. -/

/-- C-level types appearing in the cdef signatures relevant to the claims. -/
inductive CType where
  | qptr
  | timeT
  | clong
  | timespecPtr
deriving DecidableEq

/-- Parameters of `shr_q_timelimit` as declared in the cdef
(pyshr_build.py lines 240-244): `(shr_q_s *, time_t, long)`. -/
def shrQTimelimitParams : List CType := [.qptr, .timeT, .clong]

/-- Arguments passed by `SharedQueue.timelimit` (pyshr.py line 476):
`(self.pq[0], ts)` where `ts` is a `struct timespec *`. -/
def timelimitCallArgs : List CType := [.qptr, .timespecPtr]

/-- Parameters of `shr_q_target_delay` as declared in the cdef
(pyshr_build.py lines 310-314): `(shr_q_s *, time_t, long)`. -/
def shrQTargetDelayParams : List CType := [.qptr, .timeT, .clong]

/-- Arguments passed by `SharedQueue.target_delay` (pyshr.py line 575):
`(self.pq[0], ts)`. -/
def targetDelayCallArgs : List CType := [.qptr, .timespecPtr]

/-- Parameters of `shr_q_exceeds_idle_time` as declared in the cdef
(pyshr_build.py lines 217-221): `(shr_q_s *, time_t, long)`. -/
def shrQExceedsIdleTimeParams : List CType := [.qptr, .timeT, .clong]

/-- Arguments passed by `SharedQueue.exceeds_idle_time` (pyshr.py line 454):
`(self.pq[0], ts)`. -/
def exceedsIdleTimeCallArgs : List CType := [.qptr, .timespecPtr]

/-- A CFFI call is accepted only when the argument count matches the declared
parameter count. -/
def cffiArityOk (params args : List CType) : Bool :=
  params.length == args.length

/-- `SharedQueue.timelimit` (pyshr.py lines 470-478): build the timespec from
the float, then call `lib.shr_q_timelimit(self.pq[0], ts)`.  CFFI checks the
call against the declared signature; on acceptance the engine's status would
be raised if nonzero (spec-modelled here as acceptance, status 0). -/
def pyTimelimit (_tsSec _tsNsec : Int) : Except PyError Unit :=
  if cffiArityOk shrQTimelimitParams timelimitCallArgs then .ok ()
  else .error .typeError

/-- `SharedQueue.target_delay` (pyshr.py lines 569-577): build the timespec,
then call `lib.shr_q_target_delay(self.pq[0], ts)`. -/
def pyTargetDelay (_tsSec _tsNsec : Int) : Except PyError Unit :=
  if cffiArityOk shrQTargetDelayParams targetDelayCallArgs then .ok ()
  else .error .typeError

/-- `SharedQueue.exceeds_idle_time` (pyshr.py lines 448-454): build the
timespec, then return `lib.shr_q_exceeds_idle_time(self.pq[0], ts)`.
`engineAnswer` stands for the boolean the engine would return if the call
were accepted. -/
def pyExceedsIdleTime (_tsSec _tsNsec : Int) (engineAnswer : Bool) :
    Except PyError Bool :=
  if cffiArityOk shrQExceedsIdleTimeParams exceedsIdleTimeCallArgs then
    .ok engineAnswer
  else .error .typeError

/-! ## Handle lifecycle (claim C8) -/

/-- `SharedQueue.destroy` (pyshr.py lines 174-183).  The handle is
`self.pq[0]`: `none` models a NULL pointer (already closed).  On a closed
handle the source raises `ShareException('destroy',
ShareError.text[lib.SH_ERR_ARG])`; on a live handle the engine destroy runs
(spec-modelled as succeeding, status 0). -/
def pyDestroy (pq : Option Unit) : Except PyError Unit :=
  match pq with
  | none => .error (.shareException "destroy" ((shareErrorText).getD 4 ""))
  | some _ => .ok ()

/-! ## Item codec (claims C3, C6, C7, C9)

`SharedQueue.__to_vector` (pyshr.py lines 236-298) marshals each element of
the `items` list into an `sq_vec_s` entry `(type, len, base)`;
`SharedQueue.__to_list` (pyshr.py lines 345-376) decodes those entries back to
Python values on remove.  Payload memory is modelled at the granularity the
wrapper writes it: a 4-byte C int, an 8-byte C long long, an 8-byte C double,
or a byte buffer. -/

/-- Contents of an `sq_vec_s` payload buffer as written through `ffi.new`. -/
inductive Payload where
  | i32 (n : Int)
  | i64 (n : Int)
  | f64 (bits : Nat)
  | bytes (bs : List Nat)
deriving DecidableEq

/-- One marshalled `sq_vec_s` entry: type tag, length, payload base. -/
structure EncElem where
  type : Int
  len : Nat
  base : Payload
deriving DecidableEq

/-- A value produced by `__to_list`: either a plain Python value or the tuple
`(tag, value)` the decoder builds for XML and JSON entries. -/
inductive DecVal where
  | val (v : PyVal)
  | taggedPair (tag : Int) (v : PyVal)
deriving DecidableEq

/-- `ffi.new("int *", n)` (pyshr.py line 250): stores a 4-byte C int, raising
`OverflowError` outside the 32-bit signed range. -/
def encI32 (n : Int) : Except PyError EncElem :=
  if -2147483648 ≤ n ∧ n < 2147483648 then .ok ⟨2, 4, .i32 n⟩
  else .error .overflowError

/-- `ffi.new("long long *", n)` (pyshr.py line 255): stores an 8-byte C
integer, raising `OverflowError` outside the 64-bit signed range. -/
def encI64 (n : Int) : Except PyError EncElem :=
  if -9223372036854775808 ≤ n ∧ n < 9223372036854775808 then .ok ⟨2, 8, .i64 n⟩
  else .error .overflowError

/-- Python 2 `unicode.encode()` with no argument: the ASCII codec, raising
`UnicodeEncodeError` on any code point of 128 or above. -/
def asciiEncode (cps : List Nat) : Except PyError (List Nat) :=
  if cps.all (fun c => c < 128) then .ok cps
  else .error .unicodeEncodeError

/-- Python 2 `str.encode()` with no argument: decode as ASCII then re-encode,
the identity on pure-ASCII byte strings and a `UnicodeDecodeError` on any byte
of 128 or above. -/
def strEncode (bs : List Nat) : Except PyError (List Nat) :=
  if bs.all (fun b => b < 128) then .ok bs
  else .error .unicodeDecodeError

/-- The branch cascade of `__to_vector` (pyshr.py lines 247-298) for one
element, after the tuple unpacking.  `dk = none` means the element was a plain
value (so `d_type` is its Python type); `dk = some k` means it was the tuple
`(k, data)` with `k` already validated to lie in `0..9`.

The cascade is reorganised here as a match on the data constructor with the
tag tests inside; each arm was checked case by case against the source order:
* `.pint`: the integer branch takes plain ints and tag `SH_INTEGER_T = 2`;
  tag 3 converts the int to a C double (no claim reaches this, left
  unmodelled); tags 4, 8 and 1 fail at `len(data)` with `TypeError`; tags 5
  and 7 fail at `data.encode()` with `AttributeError`; remaining tags reach
  the `__len__` fallback, fail it, and raise the invalid-argument
  `ShareException`.
* `.plong`: same with the 8-byte branch.
* `.pfloat`: the float branch takes plain floats and tag `SH_FLOAT_T = 3`;
  other tags fail exactly as for `.pint` except that tag 2 also falls through
  to the final `ShareException` (a float is neither an int nor a long
  instance and has no `__len__`).
* `.pstr` (Python 2 `str`/`bytes`): plain strings and tag 4 take the ASCII
  branch; tag 3 fails in `ffi.new("double *", data)` with `TypeError`; tag 8
  takes the XML branch verbatim; tags 5 and 7 pass through `str.encode()`;
  every other tag (0, 1, 2, 6, 9) is marshalled as `SH_STRM_T = 1` — tag 1
  by its own branch, the rest through the `__len__` fallback.
* `.punicode`: plain unicode and tag 5 take the utf8 branch through
  `unicode.encode()`; tag 3 fails with `TypeError`; tag 8 encodes then takes
  the XML branch; tag 7 encodes in the JSON branch; all remaining tags reach
  `ffi.new('char[]', data)` with a unicode argument, which no claim
  exercises (left unmodelled).
* `.pnone`: tags 3, 4, 8 and 1 raise `TypeError` (`ffi.new` conversion or
  `len(None)`); tags 5 and 7 raise `AttributeError` (`None.encode()`); plain
  `None` and the remaining tags fall to the final `ShareException`. -/
def toVectorDispatch (dk : Option Int) (data : PyVal) : Except PyError EncElem :=
  match data with
  | .pint n =>
    if dk = none ∨ dk = some 2 then encI32 n
    else if dk = some 3 then .error (.notModeled "int converted to C double")
    else if dk = some 4 ∨ dk = some 8 ∨ dk = some 1 then .error .typeError
    else if dk = some 5 ∨ dk = some 7 then .error .attributeError
    else .error (.shareException "__to_vector" "invalid argument")
  | .plong n =>
    if dk = none ∨ dk = some 2 then encI64 n
    else if dk = some 3 then .error (.notModeled "long converted to C double")
    else if dk = some 4 ∨ dk = some 8 ∨ dk = some 1 then .error .typeError
    else if dk = some 5 ∨ dk = some 7 then .error .attributeError
    else .error (.shareException "__to_vector" "invalid argument")
  | .pfloat bits =>
    if dk = none ∨ dk = some 3 then .ok ⟨3, 8, .f64 bits⟩
    else if dk = some 4 ∨ dk = some 8 ∨ dk = some 1 then .error .typeError
    else if dk = some 5 ∨ dk = some 7 then .error .attributeError
    else .error (.shareException "__to_vector" "invalid argument")
  | .pstr bs =>
    if dk = none ∨ dk = some 4 then .ok ⟨4, bs.length, .bytes bs⟩
    else if dk = some 3 then .error .typeError
    else if dk = some 8 then .ok ⟨8, bs.length, .bytes bs⟩
    else if dk = some 5 then (strEncode bs).map (fun out => ⟨5, out.length, .bytes out⟩)
    else if dk = some 7 then (strEncode bs).map (fun out => ⟨7, out.length, .bytes out⟩)
    else .ok ⟨1, bs.length, .bytes bs⟩
  | .punicode cps =>
    if dk = none ∨ dk = some 5 then (asciiEncode cps).map (fun out => ⟨5, out.length, .bytes out⟩)
    else if dk = some 3 then .error .typeError
    else if dk = some 8 then (asciiEncode cps).map (fun out => ⟨8, out.length, .bytes out⟩)
    else if dk = some 7 then (asciiEncode cps).map (fun out => ⟨7, out.length, .bytes out⟩)
    else .error (.notModeled "char array initialized from unicode")
  | .pnone =>
    if dk = some 3 ∨ dk = some 4 ∨ dk = some 8 ∨ dk = some 1 then .error .typeError
    else if dk = some 5 ∨ dk = some 7 then .error .attributeError
    else .error (.shareException "__to_vector" "invalid argument")

/-- One iteration of the `__to_vector` loop (pyshr.py lines 237-246): a tuple
element is unpacked as `(items[i][0], items[i][1])`; indexing an empty tuple
raises `IndexError`; `SHType.is_valid` requires the tag to be an `int`
instance in `0..9` and the tuple to have exactly two elements, else the
invalid-argument `ShareException` is raised. -/
def toVectorElem : PyItem → Except PyError EncElem
  | .plain v => toVectorDispatch none v
  | .tup [] => .error .indexError
  | .tup (t0 :: rest) =>
    match t0 with
    | .pint k =>
      if 0 ≤ k ∧ k ≤ 9 ∧ rest.length = 1 then
        toVectorDispatch (some k) (rest.headD .pnone)
      else .error (.shareException "__to_vector" "invalid argument")
    | _ => .error (.shareException "__to_vector" "invalid argument")

/-- The whole `__to_vector` loop: marshal each element in order, stopping at
the first exception — the engine add call only happens after every element
has been marshalled. -/
def mapExcept (f : α → Except PyError β) : List α → Except PyError (List β)
  | [] => .ok []
  | a :: as =>
    match f a with
    | .error e => .error e
    | .ok b =>
      match mapExcept f as with
      | .error e => .error e
      | .ok bs => .ok (b :: bs)

/-- `__to_vector` over the whole items list. -/
def toVector (items : List PyItem) : Except PyError (List EncElem) :=
  mapExcept toVectorElem items

/-- One entry of `__to_list` (pyshr.py lines 348-375): dispatch on the stored
type tag in source order (integer, float, ascii, stream, xml, utf8, json,
utf16, else).  Reading a payload at a C type other than the one the wrapper
stored is a raw-memory reinterpretation no claim reaches, marked unmodelled;
likewise utf-8 decoding of non-ASCII bytes and utf-16 decoding, which the
encoder never produces. -/
def toListElem (e : EncElem) : Except PyError DecVal :=
  if e.type = 2 then
    if e.len = 4 then
      match e.base with
      | .i32 n => .ok (.val (.pint n))
      | _ => .error (.notModeled "raw memory read at another C type")
    else
      match e.base with
      | .i64 n => .ok (.val (.plong n))
      | _ => .error (.notModeled "raw memory read at another C type")
  else if e.type = 3 then
    if e.len = 8 then
      match e.base with
      | .f64 bits => .ok (.val (.pfloat bits))
      | _ => .error (.notModeled "raw memory read at another C type")
    else .error (.shareException "__to_list" "incompatible float type")
  else if e.type = 4 then
    match e.base with
    | .bytes bs =>
      if e.len = bs.length then .ok (.val (.pstr bs))
      else .error (.notModeled "raw memory read at another length")
    | _ => .error (.notModeled "raw memory read at another C type")
  else if e.type = 1 then
    match e.base with
    | .bytes bs =>
      if e.len = bs.length then .ok (.val (.pstr bs))
      else .error (.notModeled "raw memory read at another length")
    | _ => .error (.notModeled "raw memory read at another C type")
  else if e.type = 8 then
    match e.base with
    | .bytes bs =>
      if e.len = bs.length then .ok (.taggedPair 8 (.pstr bs))
      else .error (.notModeled "raw memory read at another length")
    | _ => .error (.notModeled "raw memory read at another C type")
  else if e.type = 5 then
    match e.base with
    | .bytes bs =>
      if e.len = bs.length ∧ bs.all (fun b => b < 128) then
        .ok (.val (.punicode bs))
      else .error (.notModeled "utf-8 decode beyond ascii")
    | _ => .error (.notModeled "raw memory read at another C type")
  else if e.type = 7 then
    match e.base with
    | .bytes bs =>
      if e.len = bs.length ∧ bs.all (fun b => b < 128) then
        .ok (.taggedPair 7 (.punicode bs))
      else .error (.notModeled "utf-8 decode beyond ascii")
    | _ => .error (.notModeled "raw memory read at another C type")
  else if e.type = 6 then .error (.notModeled "utf-16 decode")
  else .error (.shareException "__to_list" "incompatible data type")

/-- `__to_list` over a removed item's vector. -/
def toList (vec : List EncElem) : Except PyError (List DecVal) :=
  mapExcept toListElem vec

/-! ## Queue state and the facade operations on it

Modelled from the spec: under FIFO mode the engine stores each added vector
and returns the stored payload bytes, lengths and type tags verbatim in
insertion order.  The queue state is the list of stored vectors, oldest
first. -/

/-- The engine-held queue contents: one entry per `addv`, oldest first. -/
abbrev QueueModel := List (List EncElem)

/-- An `sq_item_s` as returned by `shr_q_remove*`: the status and, on
success, the vector of typed entries. -/
structure SqItem where
  status : Nat
  vector : List EncElem

/-- `SharedQueue.addv` (pyshr.py lines 300-311): marshal every element with
`__to_vector`, then hand the vector to the engine (spec-modelled: the vector
is appended at the tail and the status is success). -/
def pyAddv (q : QueueModel) (items : List PyItem) : Except PyError QueueModel :=
  match toVector items with
  | .error e => .error e
  | .ok vec => .ok (q ++ [vec])

/-- `SharedQueue.addv_wait` (pyshr.py lines 313-324): identical marshalling,
blocking engine call. -/
def pyAddvWait (q : QueueModel) (items : List PyItem) : Except PyError QueueModel :=
  match toVector items with
  | .error e => .error e
  | .ok vec => .ok (q ++ [vec])

/-- `SharedQueue.addv_timedwait` (pyshr.py lines 326-343): the timespec is
built first, then the same marshalling and a timed engine call. -/
def pyAddvTimedwait (q : QueueModel) (items : List PyItem) (_tsSec _tsNsec : Int) :
    Except PyError QueueModel :=
  match toVector items with
  | .error e => .error e
  | .ok vec => .ok (q ++ [vec])

/-- The common body of `SharedQueue.remove`, `remove_wait` and
`remove_timedwait` (pyshr.py lines 378-414) applied to the `sq_item_s` the
engine returned: status `SH_ERR_EMPTY = 2` yields `[]`; any other nonzero
status raises `ShareException(whence, ShareError.text[status])`; on success
the vector is decoded with `__to_list`. -/
def pyRemoveItem (whence : String) (item : SqItem) : Except PyError (List DecVal) :=
  if item.status = 2 then .ok []
  else if item.status ≠ 0 then
    match shareErrorText.get? item.status with
    | some msg => .error (.shareException whence msg)
    | none => .error .indexError
  else toList item.vector

/-- Draining the queue with repeated `remove()` calls: the engine pops the
front vector verbatim (status success) until the queue is empty. -/
def drainQueue : QueueModel → Except PyError (List (List DecVal))
  | [] => .ok []
  | vec :: rest =>
    match pyRemoveItem "remove" ⟨0, vec⟩ with
    | .error e => .error e
    | .ok x =>
      match drainQueue rest with
      | .error e => .error e
      | .ok xs => .ok (x :: xs)

/-- A sequence of `addv` calls, each adding one vector of items. -/
def runAddvs (q : QueueModel) : List (List PyItem) → Except PyError QueueModel
  | [] => .ok q
  | l :: ls =>
    match pyAddv q l with
    | .error e => .error e
    | .ok q2 => runAddvs q2 ls

/-! ## Supported and malformed items -/

/-- The item shapes named by the round-trip claim, with the constraints the
code imposes on them: a Python 2 `int` fits the 4-byte C int, a `long` fits
the 8-byte C integer, `str`/`bytes` are arbitrary byte strings, `unicode` and
JSON-tagged `unicode` must survive the ASCII default codec of Python 2's
bare `.encode()`. -/
def supportedVal : PyVal → Bool
  | .pint n => decide (-2147483648 ≤ n) && decide (n < 2147483648)
  | .plong n =>
    decide (-9223372036854775808 ≤ n) && decide (n < 9223372036854775808)
  | .pfloat _ => true
  | .pstr _ => true
  | .punicode cps => cps.all (fun c => c < 128)
  | .pnone => false

/-- The JSON-tagged tuple form of the round-trip claim. -/
def supportedJson : List PyVal → Bool
  | [.pint k, .punicode cps] => k == 7 && cps.all (fun c => c < 128)
  | _ => false

/-- A supported item: one of the shapes above. -/
def supportedItem : PyItem → Bool
  | .plain v => supportedVal v
  | .tup es => supportedJson es

/-- The Python value `remove` hands back for a supported item: the value
itself, with JSON entries wrapped in the `(tag, text)` tuple the decoder
builds — for a JSON input tuple `(7, u)` the result `(7, u)` is the identical
Python tuple. -/
def expectedDec : PyItem → DecVal
  | .plain v => .val v
  | .tup [.pint k, v] => .taggedPair k v
  | _ => .val .pnone

/-- The malformed entries of the vector-add claim, as the code can actually
report them: a non-empty tuple whose first element fails `SHType.is_valid` or
whose length is not 2, or a value with no marshalling branch and no
`__len__`.  The empty tuple is excluded: it dies in `items[i][0]` with an
`IndexError` before the validation runs. -/
def malformedItem : PyItem → Bool
  | .tup [] => false
  | .tup (t0 :: rest) =>
    match t0 with
    | .pint k => !(decide (0 ≤ k) && decide (k ≤ 9)) || rest.length != 1
    | _ => true
  | .plain .pnone => true
  | _ => false


/-- The entries a spec-conforming engine can hand back on a successful
remove: exactly the shapes `__to_vector` stores ("Decode on remove always
yields the original type tag and exact byte length"). -/
def engineElem (e : EncElem) : Bool :=
  match e.base with
  | .i32 _ => e.type == 2 && e.len == 4
  | .i64 _ => e.type == 2 && e.len != 4
  | .f64 _ => e.type == 3 && e.len == 8
  | .bytes bs =>
    (e.type == 4 || e.type == 1 || e.type == 8) && e.len == bs.length ||
      (e.type == 5 || e.type == 7) &&
        (e.len == bs.length && bs.all (fun b => b < 128))

/-- Whether a wrapper call raised an exception rather than returning. -/
def raisesError : Except PyError α → Bool
  | .error _ => true
  | .ok _ => false

/-- A whole add-then-remove experiment: perform the `addv` calls on an empty
queue, then drain it with `remove()` calls. -/
def addThenDrain (addss : List (List PyItem)) :
    Except PyError (List (List DecVal)) :=
  match runAddvs [] addss with
  | .error e => .error e
  | .ok q => drainQueue q

/-! ## Constructor (claim C2)

The queue world — which names currently name a valid queue — lives in the
engine.  Modelled from the spec (§4.1 Segment Allocator). -/

/-- Modelled from the spec: `shr_q_is_valid(name)` is a non-blocking
existence probe over the set of existing queue names. -/
def shrQIsValidName (world : List (List Nat)) (nm : List Nat) : Bool :=
  nm ∈ world

/-- Modelled from the spec: `shr_q_open` fails with the existence status
`SH_ERR_EXIST = 7` if the name is absent, otherwise succeeds (status 0). -/
def shrQOpen (world : List (List Nat)) (nm : List Nat) (_mode : Int) : Nat :=
  if nm ∈ world then 0 else 7

/-- Modelled from the spec: `shr_q_create` fails with `SH_ERR_EXIST = 7` if
the name already exists and a capacity was specified; with capacity 0 it
falls back to open-semantics when permitted; otherwise it creates the
queue. -/
def shrQCreate (world : List (List Nat)) (nm : List Nat) (size : Int)
    (_mode : Int) : Nat × List (List Nat) :=
  if nm ∈ world then
    if size ≠ 0 then (7, world) else (0, world)
  else (0, nm :: world)

/-- Which way the constructor bound the handle. -/
inductive InitPath where
  | opened
  | created
deriving DecidableEq

/-- The open-or-create decision of `SharedQueue.__init__` (pyshr.py lines
161-168) on the already encoded name: if the name is a valid queue and the
size is 0 the queue is opened, otherwise it is created; a nonzero engine
status is raised as `ShareException('open'/'create',
ShareError.text[status])`. -/
def sharedQueueInitCore (world : List (List Nat)) (nm : List Nat) (mode : Int)
    (sz : Int) : Except PyError (InitPath × List (List Nat)) :=
  if shrQIsValidName world nm ∧ sz = 0 then
    let st := shrQOpen world nm mode
    if st ≠ 0 then .error (.shareException "open" (shareErrorText.getD st ""))
    else .ok (.opened, world)
  else
    let res := shrQCreate world nm sz mode
    if res.1 ≠ 0 then
      .error (.shareException "create" (shareErrorText.getD res.1 ""))
    else .ok (.created, res.2)

/-- `SharedQueue.__init__` (pyshr.py lines 140-172): validate the mode, the
name (a `str` or `unicode`) and the size (an `int` — a Python 2 `long` is
rejected), encode the name with the Python 2 default codec, then open or
create. -/
def sharedQueueInit (world : List (List Nat)) (name : PyVal) (mode : Int)
    (size : PyVal) : Except PyError (InitPath × List (List Nat)) :=
  if ¬ sqModeIsValid mode then
    .error (.shareException "constructor" "invalid argument")
  else
    match name with
    | .pstr bs =>
      match size with
      | .pint sz =>
        match strEncode bs with
        | .error e => .error e
        | .ok nm => sharedQueueInitCore world nm mode sz
      | _ => .error (.shareException "constructor" "invalid argument")
    | .punicode cps =>
      match size with
      | .pint sz =>
        match asciiEncode cps with
        | .error e => .error e
        | .ok nm => sharedQueueInitCore world nm mode sz
      | _ => .error (.shareException "constructor" "invalid argument")
    | _ => .error (.shareException "constructor" "invalid argument")

/-! ## Helper lemmas -/

theorem mapExcept_ok_of_forall (f : α → Except PyError β) :
    ∀ l : List α, (∀ a ∈ l, ∃ b, f a = .ok b) →
      ∃ bs, mapExcept f l = .ok bs := by
  intro l
  induction l with
  | nil => exact fun _ => ⟨[], rfl⟩
  | cons a as ih =>
    intro h
    obtain ⟨b, hb⟩ := h a (by simp)
    obtain ⟨bs, hbs⟩ := ih fun x hx => h x (by simp [hx])
    exact ⟨b :: bs, by simp [mapExcept, hb, hbs]⟩

/-- Each supported item marshals without an exception and decodes back to the
expected Python value. -/
theorem roundtrip_elem (it : PyItem) (h : supportedItem it = true) :
    ∃ e, toVectorElem it = .ok e ∧ toListElem e = .ok (expectedDec it) := by
  cases it with
  | plain v =>
    cases v with
    | pint n =>
      simp only [supportedItem, supportedVal, Bool.and_eq_true,
        decide_eq_true_eq] at h
      refine ⟨⟨2, 4, .i32 n⟩, ?_, rfl⟩
      simp [toVectorElem, toVectorDispatch, encI32, h.1, h.2]
    | plong n =>
      simp only [supportedItem, supportedVal, Bool.and_eq_true,
        decide_eq_true_eq] at h
      refine ⟨⟨2, 8, .i64 n⟩, ?_, rfl⟩
      simp [toVectorElem, toVectorDispatch, encI64, h.1, h.2]
    | pfloat bits => exact ⟨⟨3, 8, .f64 bits⟩, rfl, rfl⟩
    | pstr bs =>
      exact ⟨⟨4, bs.length, .bytes bs⟩, rfl, by simp [toListElem, expectedDec]⟩
    | punicode cps =>
      simp only [supportedItem, supportedVal] at h
      refine ⟨⟨5, cps.length, .bytes cps⟩, ?_, ?_⟩
      · simp [toVectorElem, toVectorDispatch, asciiEncode, h, Except.map]
      · simp [toListElem, expectedDec, h]
    | pnone => simp [supportedItem, supportedVal] at h
  | tup es =>
    rcases es with _ | ⟨a, _ | ⟨b, _ | ⟨c, rest⟩⟩⟩
    · simp [supportedItem, supportedJson] at h
    · simp [supportedItem, supportedJson] at h
    · cases a <;> cases b <;>
        simp only [supportedItem, supportedJson, Bool.false_eq_true] at h
      case pint.punicode k cps =>
        simp only [Bool.and_eq_true, beq_iff_eq] at h
        obtain ⟨rfl, hall⟩ := h
        refine ⟨⟨7, cps.length, .bytes cps⟩, ?_, ?_⟩
        · simp [toVectorElem, toVectorDispatch, asciiEncode, hall, Except.map]
        · simp [toListElem, expectedDec, hall]
    · simp [supportedItem, supportedJson] at h

/-- Marshalling a list of supported items succeeds and the result decodes
back, element by element and in order. -/
theorem toVector_roundtrip : ∀ items : List PyItem,
    items.all supportedItem = true →
    ∃ vec, toVector items = .ok vec ∧
      toList vec = .ok (items.map expectedDec) := by
  intro items
  induction items with
  | nil => exact fun _ => ⟨[], rfl, rfl⟩
  | cons a as ih =>
    intro h
    simp only [List.all_cons, Bool.and_eq_true] at h
    obtain ⟨e, he, hde⟩ := roundtrip_elem a h.1
    obtain ⟨vec, hv, hl⟩ := ih h.2
    refine ⟨e :: vec, ?_, ?_⟩
    · simp only [toVector] at hv ⊢
      simp [mapExcept, he, hv]
    · simp only [toList] at hl ⊢
      simp [mapExcept, hde, hl]

/-- Running the supported adds appends the marshalled vectors in order, and
draining returns the expected decodings in the same order. -/
theorem runAddvs_drain_aux : ∀ addss : List (List PyItem),
    addss.all (fun l => l.all supportedItem) = true →
    ∀ q0 : QueueModel, ∃ tail : QueueModel,
      runAddvs q0 addss = .ok (q0 ++ tail) ∧
      drainQueue tail = .ok (addss.map fun l => l.map expectedDec) := by
  intro addss
  induction addss with
  | nil => exact fun _ q0 => ⟨[], by simp [runAddvs], rfl⟩
  | cons l ls ih =>
    intro h q0
    simp only [List.all_cons, Bool.and_eq_true] at h
    obtain ⟨vec, hv, hl⟩ := toVector_roundtrip l h.1
    obtain ⟨tail, hr, hd⟩ := ih h.2 (q0 ++ [vec])
    refine ⟨vec :: tail, ?_, ?_⟩
    · simp only [runAddvs, pyAddv, hv]
      rw [hr]
      simp
    · have hrem : pyRemoveItem "remove" ⟨0, vec⟩ = .ok (l.map expectedDec) := by
        simp [pyRemoveItem, hl]
      simp [drainQueue, hrem, hd]

/-- A malformed item raises the invalid-argument `ShareException` from inside
`__to_vector`. -/
theorem toVectorElem_malformed (it : PyItem) (h : malformedItem it = true) :
    toVectorElem it =
      .error (.shareException "__to_vector" "invalid argument") := by
  cases it with
  | plain v =>
    cases v with
    | pnone => rfl
    | pint n => simp [malformedItem] at h
    | plong n => simp [malformedItem] at h
    | pfloat bits => simp [malformedItem] at h
    | pstr bs => simp [malformedItem] at h
    | punicode cps => simp [malformedItem] at h
  | tup es =>
    rcases es with _ | ⟨t0, rest⟩
    · simp [malformedItem] at h
    · cases t0 with
      | pint k =>
        have hneg : ¬ (0 ≤ k ∧ k ≤ 9 ∧ rest.length = 1) := by
          rintro ⟨h1, h2, h3⟩
          simp [malformedItem, h1, h2, h3] at h
        simp [toVectorElem, hneg]
      | plong n => rfl
      | pfloat bits => rfl
      | pstr bs => rfl
      | punicode cps => rfl
      | pnone => rfl

/-- When every entry is either supported or malformed and at least one is
malformed, the whole marshalling pass raises the invalid-argument
`ShareException` (the first malformed entry is hit before any engine call). -/
theorem toVector_error_of_malformed : ∀ items : List PyItem,
    items.all (fun it => supportedItem it || malformedItem it) = true →
    items.any malformedItem = true →
    toVector items =
      .error (.shareException "__to_vector" "invalid argument") := by
  intro items
  induction items with
  | nil => intro _ hbad; simp at hbad
  | cons a as ih =>
    intro hshape hbad
    simp only [List.all_cons, Bool.and_eq_true, Bool.or_eq_true] at hshape
    by_cases hm : malformedItem a = true
    · have := toVectorElem_malformed a hm
      simp [toVector, mapExcept, this]
    · have hsup : supportedItem a = true := by
        rcases hshape.1 with hx | hx
        · exact hx
        · exact absurd hx hm
      obtain ⟨e, he, _⟩ := roundtrip_elem a hsup
      have hbad2 : as.any malformedItem = true := by
        simp only [List.any_cons, Bool.or_eq_true] at hbad
        rcases hbad with hx | hx
        · exact absurd hx hm
        · exact hx
      have := ih hshape.2 hbad2
      simp only [toVector] at this ⊢
      simp [mapExcept, he, this]

/-- Every engine-producible entry decodes without an exception. -/
theorem toListElem_ok_of_engine (e : EncElem) (h : engineElem e = true) :
    ∃ d, toListElem e = .ok d := by
  obtain ⟨t, len, base⟩ := e
  cases base with
  | i32 n =>
    simp only [engineElem, Bool.and_eq_true, beq_iff_eq] at h
    obtain ⟨rfl, rfl⟩ := h
    exact ⟨_, rfl⟩
  | i64 n =>
    simp only [engineElem, Bool.and_eq_true, beq_iff_eq, bne_iff_ne] at h
    obtain ⟨rfl, hlen⟩ := h
    exact ⟨.val (.plong n), by simp [toListElem, hlen]⟩
  | f64 bits =>
    simp only [engineElem, Bool.and_eq_true, beq_iff_eq] at h
    obtain ⟨rfl, rfl⟩ := h
    exact ⟨_, rfl⟩
  | bytes bs =>
    simp only [engineElem, Bool.or_eq_true, Bool.and_eq_true, beq_iff_eq] at h
    rcases h with ⟨(rfl | rfl) | rfl, rfl⟩ | ⟨rfl | rfl, rfl, hall⟩
    · exact ⟨.val (.pstr bs), by simp [toListElem]⟩
    · exact ⟨.val (.pstr bs), by simp [toListElem]⟩
    · exact ⟨.taggedPair 8 (.pstr bs), by simp [toListElem]⟩
    · exact ⟨.val (.punicode bs), by simp [toListElem, hall]⟩
    · exact ⟨.taggedPair 7 (.punicode bs), by simp [toListElem, hall]⟩

/-- A well-formed removed vector decodes without an exception. -/
theorem toList_ok_of_engine (vec : List EncElem)
    (h : vec.all engineElem = true) : ∃ l, toList vec = .ok l := by
  apply mapExcept_ok_of_forall
  intro e he
  exact toListElem_ok_of_engine e (List.all_eq_true.mp h e he)

/-! ## Theorems -/

/-- C1: after `subscribe(e)` followed by a successful `unsubscribe(e)`, the
event is still subscribed — `is_subscribed(e)` returns `true`, not `false` as
the claim states — because `unsubscribe` invokes `shr_q_subscribe`.  A
correctly routed `shr_q_unsubscribe` would leave the set empty.  Evaluated at
the failing input `event = SQEvent.INIT = 1` starting from an empty
subscription set. -/
theorem c1_unsubscribe_leaves_event_subscribed :
    pySubscribe [] 1 = .ok [1] ∧
    pyUnsubscribe [1] 1 = .ok [1] ∧
    pyIsSubscribed [1] 1 = .ok true ∧
    shrQUnsubscribe [1] 1 = [] ∧
    shrQIsSubscribed (shrQUnsubscribe [1] 1) 1 = false := by
  refine ⟨rfl, rfl, rfl, rfl, rfl⟩

/-- C4: every call to `timelimit` or `target_delay` raises a `TypeError`
before reaching the engine: the wrapper passes two arguments (queue pointer
and a `struct timespec *`) to functions whose cdef declares three parameters
(queue pointer, `time_t` seconds, `long` nanoseconds).  Evaluated at a
timespec of 1 second 500000000 nanoseconds, i.e. `timelimit(1.5)`. -/
theorem c4_timelimit_target_delay_raise_typeerror :
    pyTimelimit 1 500000000 = .error .typeError ∧
    pyTargetDelay 1 500000000 = .error .typeError ∧
    shrQTimelimitParams.length = 3 ∧ timelimitCallArgs.length = 2 ∧
    shrQTargetDelayParams.length = 3 ∧ targetDelayCallArgs.length = 2 := by
  refine ⟨rfl, rfl, rfl, rfl, rfl, rfl⟩

/-- C5: every call to `exceeds_idle_time` raises a `TypeError` instead of
returning a boolean: the wrapper passes `(self.pq[0], ts)` to
`shr_q_exceeds_idle_time`, whose cdef declares three parameters
`(shr_q_s *, time_t, long)`.  Evaluated at duration 1.0 seconds, for either
engine answer. -/
theorem c5_exceeds_idle_time_raises_typeerror :
    pyExceedsIdleTime 1 0 true = .error .typeError ∧
    pyExceedsIdleTime 1 0 false = .error .typeError ∧
    shrQExceedsIdleTimeParams.length = 3 ∧
    exceedsIdleTimeCallArgs.length = 2 := by
  refine ⟨rfl, rfl, rfl, rfl⟩

/-- C8 counterexample: `destroy()` on an already closed handle raises a
`ShareException` carrying `ShareError.text[SH_ERR_ARG] = "invalid argument"`,
not the invalid-state message `ShareError.text[SH_ERR_STATE] = "invalid
state"` the claim names. -/
theorem c8_destroy_closed_not_invalid_state :
    pyDestroy none = .error (.shareException "destroy" "invalid argument") ∧
    shareErrorText.getD 4 "" = "invalid argument" ∧
    shareErrorText.getD 8 "" = "invalid state" ∧
    (PyError.shareException "destroy" "invalid argument" ≠
      PyError.shareException "destroy" "invalid state") := by
  refine ⟨rfl, rfl, rfl, by decide⟩

/-- C8 (amended): calling `destroy()` on a handle whose queue pointer is NULL
fails with a `ShareException` carrying the invalid-argument message. -/
theorem c8_destroy_closed_raises_invalid_argument :
    pyDestroy none = .error (.shareException "destroy" "invalid argument") :=
  rfl

/-- C10: a nonzero engine status `s` with `1 <= s <= 11` is translated through
`ShareError.text[s]` and raised as a `ShareException`; the statuses
`SH_ERR_CONFLICT = 12` and `SH_ERR_NO_MATCH = 13` are accepted by
`SHStatus.is_valid`, yet `ShareError.text` holds only 12 messages, so the
lookup raises an `IndexError` instead. -/
theorem c10_status_translation_gap (s : Nat) (h1 : 1 ≤ s) (h2 : s ≤ 11) :
    pyAddStatus s = .error (.shareException "add" (shareErrorText.getD s "")) ∧
    shareErrorText.length = 12 ∧
    shStatusIsValid 12 = true ∧
    shStatusIsValid 13 = true ∧
    pyAddStatus 12 = .error .indexError ∧
    pyAddStatus 13 = .error .indexError := by
  refine ⟨?_, rfl, rfl, rfl, rfl, rfl⟩
  interval_cases s <;> rfl

/-- C10 witness: the translation at the concrete status `SH_ERR_EXIST = 7`. -/
theorem c10_status_translation_gap_witness :
    pyAddStatus 7 = .error (.shareException "add" (shareErrorText.getD 7 "")) ∧
    shareErrorText.length = 12 ∧
    shStatusIsValid 12 = true ∧
    shStatusIsValid 13 = true ∧
    pyAddStatus 12 = .error .indexError ∧
    pyAddStatus 13 = .error .indexError :=
  c10_status_translation_gap 7 (by decide) (by decide)

/-- C2: constructing a `SharedQueue` for a name that already names a valid
queue with size 0 opens the existing queue, while any nonzero size for an
existing name reaches `shr_q_create` and is raised as
`ShareException('create', "existence error")`. -/
theorem c2_init_opens_existing_or_raises_exist (world : List (List Nat))
    (bs : List Nat) (mode : Int) (sz : Int)
    (hmode : sqModeIsValid mode = true)
    (hascii : bs.all (fun b => b < 128) = true)
    (hexists : bs ∈ world)
    (hsz : sz ≠ 0) :
    sharedQueueInit world (.pstr bs) mode (.pint 0) = .ok (.opened, world) ∧
    sharedQueueInit world (.pstr bs) mode (.pint sz) =
      .error (.shareException "create" "existence error") := by
  constructor
  · simp [sharedQueueInit, sharedQueueInitCore, strEncode, shrQIsValidName,
      shrQOpen, shrQCreate, hmode, hascii, hexists]
  · simp [sharedQueueInit, sharedQueueInitCore, strEncode, shrQIsValidName,
      shrQOpen, shrQCreate, hmode, hascii, hexists, hsz, shareErrorText]

/-- C2 witness: a one-queue world holding the name "q" (byte 113), opened
with size 0 under READWRITE mode, and failing with the existence error for
size 1. -/
theorem c2_init_opens_existing_or_raises_exist_witness :
    sharedQueueInit [[113]] (.pstr [113]) 3 (.pint 0) = .ok (.opened, [[113]]) ∧
    sharedQueueInit [[113]] (.pstr [113]) 3 (.pint 1) =
      .error (.shareException "create" "existence error") :=
  c2_init_opens_existing_or_raises_exist [[113]] [113] 3 1 (by decide)
    (by decide) (by decide) (by decide)

/-- C3: for every sequence of `addv` calls of supported items followed by
`remove()` calls under FIFO mode — the engine returning each stored payload,
length and type tag verbatim in insertion order — removal order equals
insertion order and every value round-trips exactly: an `int` returns as the
same `int` (stored in 4 bytes), a `long` as the same `long` (8 bytes), a
`float` as the same `float` (8 bytes), `str`/`bytes` as the identical byte
string, `unicode` as the identical `unicode`, and a `(JSON_T, text)` pair as
the identical `(JSON_T, text)` pair. -/
theorem c3_fifo_roundtrip (addss : List (List PyItem))
    (h : addss.all (fun l => l.all supportedItem) = true) :
    addThenDrain addss = .ok (addss.map fun l => l.map expectedDec) := by
  obtain ⟨tail, hr, hd⟩ := runAddvs_drain_aux addss h []
  simp only [List.nil_append] at hr
  simp [addThenDrain, hr, hd]

/-- C3 witness: two adds — a vector of an int, a byte string with a high and
a NUL byte, and a float, then a vector of a JSON-tagged unicode text and a
long — drained in insertion order with every value returned verbatim. -/
theorem c3_fifo_roundtrip_witness :
    addThenDrain
        [[.plain (.pint 5), .plain (.pstr [200, 0, 65]),
          .plain (.pfloat 4614256656552045848)],
         [.tup [.pint 7, .punicode [104, 105]], .plain (.plong 5000000000)]] =
      .ok
        ([[.plain (.pint 5), .plain (.pstr [200, 0, 65]),
           .plain (.pfloat 4614256656552045848)],
          [.tup [.pint 7, .punicode [104, 105]], .plain (.plong 5000000000)]].map
          fun l => l.map expectedDec) :=
  c3_fifo_roundtrip _ (by decide)

/-- C6 counterexample: the claim says every malformed tuple entry — in
particular "a tuple whose length is not 2" — raises a `ShareException`
carrying the invalid-argument message; but `addv([()])` dies in
`items[i][0]` with an `IndexError` before the validation can run. -/
theorem c6_empty_tuple_raises_indexerror :
    pyAddv [] [.tup []] = .error .indexError ∧
    PyError.indexError ≠
      PyError.shareException "__to_vector" "invalid argument" := by
  exact ⟨rfl, by decide⟩

/-- C6 (amended): for every items list whose entries are each supported or
malformed — a non-empty tuple whose first element is not a valid `SHType`
tag, a non-empty tuple whose length is not 2, or a value of an unsupported
type with no `__len__` — containing at least one malformed entry, `addv`,
`addv_wait` and `addv_timedwait` raise the invalid-argument `ShareException`
before any engine add call, leaving the queue unchanged (the empty tuple
instead raises `IndexError`, also before any engine call). -/
theorem c6_vector_add_all_or_nothing (items : List PyItem) (q : QueueModel)
    (tsSec tsNsec : Int)
    (hshape : items.all (fun it => supportedItem it || malformedItem it) = true)
    (hbad : items.any malformedItem = true) :
    pyAddv q items =
      .error (.shareException "__to_vector" "invalid argument") ∧
    pyAddvWait q items =
      .error (.shareException "__to_vector" "invalid argument") ∧
    pyAddvTimedwait q items tsSec tsNsec =
      .error (.shareException "__to_vector" "invalid argument") := by
  have hs := toVector_error_of_malformed items hshape hbad
  exact ⟨by simp [pyAddv, hs], by simp [pyAddvWait, hs],
    by simp [pyAddvTimedwait, hs]⟩

/-- C6 witness: a list holding one supported int and one tuple with the
invalid tag 99, added to a non-empty queue, fails identically on all three
vector-add paths. -/
theorem c6_vector_add_all_or_nothing_witness :
    pyAddv [[]] [.plain (.pint 1), .tup [.pint 99, .pnone]] =
      .error (.shareException "__to_vector" "invalid argument") ∧
    pyAddvWait [[]] [.plain (.pint 1), .tup [.pint 99, .pnone]] =
      .error (.shareException "__to_vector" "invalid argument") ∧
    pyAddvTimedwait [[]] [.plain (.pint 1), .tup [.pint 99, .pnone]] 0 10000000 =
      .error (.shareException "__to_vector" "invalid argument") :=
  c6_vector_add_all_or_nothing [.plain (.pint 1), .tup [.pint 99, .pnone]]
    [[]] 0 10000000 (by decide) (by decide)

/-- C7: for any item an engine within its status range can report (statuses
are the 12 `sh_status_e` values; a successful item carries entries the codec
stored), the empty status makes `remove`, `remove_wait` and
`remove_timedwait` return the empty list without raising, and an exception
is raised exactly for the statuses other than success and empty. -/
theorem c7_remove_empty_vs_error (item : SqItem)
    (hstat : item.status < 12)
    (hvec : item.vector.all engineElem = true) :
    (item.status = 2 →
      pyRemoveItem "remove" item = .ok [] ∧
      pyRemoveItem "remove_wait" item = .ok [] ∧
      pyRemoveItem "remove_timedwait" item = .ok []) ∧
    (raisesError (pyRemoveItem "remove" item) = true ↔
      item.status ≠ 0 ∧ item.status ≠ 2) ∧
    (raisesError (pyRemoveItem "remove_wait" item) = true ↔
      item.status ≠ 0 ∧ item.status ≠ 2) ∧
    (raisesError (pyRemoveItem "remove_timedwait" item) = true ↔
      item.status ≠ 0 ∧ item.status ≠ 2) := by
  obtain ⟨st, vec⟩ := item
  simp only at hstat hvec ⊢
  have key : ∀ whence : String,
      raisesError (pyRemoveItem whence ⟨st, vec⟩) = true ↔
        st ≠ 0 ∧ st ≠ 2 := by
    intro whence
    rcases eq_or_ne st 2 with rfl | h2
    · simp [pyRemoveItem, raisesError]
    · rcases eq_or_ne st 0 with rfl | h0
      · obtain ⟨l, hl⟩ := toList_ok_of_engine vec hvec
        simp [pyRemoveItem, raisesError, hl]
      · have hlt : st < shareErrorText.length := by
          simpa using hstat
        have hmsg : shareErrorText[st]? = some shareErrorText[st] :=
          List.getElem?_eq_getElem hlt
        simp [pyRemoveItem, raisesError, h0, h2, hmsg]
  refine ⟨?_, key "remove", key "remove_wait", key "remove_timedwait"⟩
  rintro rfl
  exact ⟨rfl, rfl, rfl⟩

/-- C7 witness: an item reported with the empty status returns the empty
list on all three paths and raises nothing; the invalid-argument status 4
raises on all three. -/
theorem c7_remove_empty_vs_error_witness :
    ((SqItem.mk 2 []).status = 2 →
      pyRemoveItem "remove" ⟨2, []⟩ = .ok [] ∧
      pyRemoveItem "remove_wait" ⟨2, []⟩ = .ok [] ∧
      pyRemoveItem "remove_timedwait" ⟨2, []⟩ = .ok []) ∧
    (raisesError (pyRemoveItem "remove" ⟨2, []⟩) = true ↔
      (SqItem.mk 2 []).status ≠ 0 ∧ (SqItem.mk 2 []).status ≠ 2) ∧
    (raisesError (pyRemoveItem "remove_wait" ⟨2, []⟩) = true ↔
      (SqItem.mk 2 []).status ≠ 0 ∧ (SqItem.mk 2 []).status ≠ 2) ∧
    (raisesError (pyRemoveItem "remove_timedwait" ⟨2, []⟩) = true ↔
      (SqItem.mk 2 []).status ≠ 0 ∧ (SqItem.mk 2 []).status ≠ 2) :=
  c7_remove_empty_vs_error ⟨2, []⟩ (by decide) (by decide)

/-- C9: the caller-supplied tags `SH_UTF16_T = 6` and `SH_STRUCT_T = 9` are
not preserved by the marshaller: a tagged byte-string sub-item falls through
every typed branch into the `__len__` fallback and is marshalled as
`SH_STRM_T = 1`, so decode cannot yield the original tag.  Evaluated at the
failing inputs `(SHType.UTF16_T, 'ab')` and `(SHType.STRUCT_T, 'ab')`. -/
theorem c9_utf16_struct_tags_not_preserved :
    toVectorElem (.tup [.pint 6, .pstr [97, 98]]) =
      .ok ⟨1, 2, .bytes [97, 98]⟩ ∧
    toVectorElem (.tup [.pint 9, .pstr [97, 98]]) =
      .ok ⟨1, 2, .bytes [97, 98]⟩ ∧
    (1 : Int) ≠ 6 ∧ (1 : Int) ≠ 9 := by
  exact ⟨rfl, rfl, by decide, by decide⟩
